import Mathlib

/-!
Shallow embedding of the observable-stream core of `src/index.ts`
(classes `Observer` and `Observable`, interface `ObserverHandlers`,
the `Observable.from` factory and `Observable.subscribe`).

The TypeScript code is stateful: an `Observer` holds a private flag
`isUnsubscribed`, an optional teardown slot `_unsubscribe` (assigned by
`Observable.subscribe` after the producer returns), and an immutable
record of optional handlers.  We embed it as explicit state passing: each
method maps an `ObserverState` to a new `ObserverState` together with the
list of externally observable effects (handler invocations and teardown
invocations) it performs, in order.

User-supplied handler functions are opaque to the core; only their
presence is tested (`if (this.handlers.next) ...`), so the embedding
records presence as a `Bool` per handler and logs each invocation,
with its argument, as an `Event`.  Likewise the teardown function
returned by the producer is opaque; the embedding records whether the
`_unsubscribe` slot has been assigned and logs each invocation.
-/

/-- Mirrors `interface ObserverHandlers<T, E>`: a record of up to three
optional callbacks.  Only presence of each callback is relevant to the
core's control flow, so each field is the presence bit of the
corresponding optional function. -/
structure ObserverHandlers (T E : Type) where
  hasNext : Bool
  hasError : Bool
  hasComplete : Bool
deriving Repr, DecidableEq

/-- One externally observable effect performed by an Observer method:
an invocation of a user handler (with its argument) or of the teardown
action stored in the `_unsubscribe` slot. -/
inductive Event (T E : Type) where
  | nextCall (value : T)
  | errorCall (err : E)
  | completeCall
  | teardownCall
deriving Repr, DecidableEq

/-- The mutable state of one `Observer<T, E>` instance:
`handlers` (set in the constructor and never changed),
`isUnsubscribed` (initially `false`), and whether the optional
`_unsubscribe` teardown slot has been assigned. -/
structure ObserverState (T E : Type) where
  handlers : ObserverHandlers T E
  isUnsubscribed : Bool
  teardownAssigned : Bool
deriving Repr, DecidableEq

namespace Observer

/-- `new Observer(handlers)`: `isUnsubscribed = false`, `_unsubscribe`
not yet assigned. -/
def mk (h : ObserverHandlers T E) : ObserverState T E :=
  { handlers := h, isUnsubscribed := false, teardownAssigned := false }

/-- `Observer.next(value)`: if `handlers.next` is present and the
observer is not unsubscribed, invoke `handlers.next(value)`; otherwise
do nothing.  The state is unchanged either way. -/
def next (s : ObserverState T E) (value : T) :
    ObserverState T E × List (Event T E) :=
  if s.handlers.hasNext && !s.isUnsubscribed then
    (s, [Event.nextCall value])
  else
    (s, [])

/-- `Observer.unsubscribe()`: unconditionally set `isUnsubscribed = true`;
then, if the `_unsubscribe` slot is assigned, invoke it. -/
def unsubscribe (s : ObserverState T E) :
    ObserverState T E × List (Event T E) :=
  let s' := { s with isUnsubscribed := true }
  if s.teardownAssigned then
    (s', [Event.teardownCall])
  else
    (s', [])

/-- `Observer.error(err)`: if not unsubscribed, invoke `handlers.error(err)`
when present, then call `this.unsubscribe()`; if already unsubscribed,
do nothing. -/
def error (s : ObserverState T E) (err : E) :
    ObserverState T E × List (Event T E) :=
  if !s.isUnsubscribed then
    let tr₁ : List (Event T E) :=
      if s.handlers.hasError then [Event.errorCall err] else []
    let r := unsubscribe s
    (r.1, tr₁ ++ r.2)
  else
    (s, [])

/-- `Observer.complete()`: if not unsubscribed, invoke `handlers.complete()`
when present, then call `this.unsubscribe()`; if already unsubscribed,
do nothing. -/
def complete (s : ObserverState T E) :
    ObserverState T E × List (Event T E) :=
  if !s.isUnsubscribed then
    let tr₁ : List (Event T E) :=
      if s.handlers.hasComplete then [Event.completeCall] else []
    let r := unsubscribe s
    (r.1, tr₁ ++ r.2)
  else
    (s, [])

end Observer

/-- One call made on an Observer, either by the producer (during
`subscribe`) or afterwards by the caller (through the returned
`Subscription`, or by an asynchronous producer continuation). -/
inductive Call (T E : Type) where
  | next (value : T)
  | error (err : E)
  | complete
  | unsubscribe
deriving Repr, DecidableEq

/-- Dispatch one call to the corresponding Observer method. -/
def applyCall (s : ObserverState T E) :
    Call T E → ObserverState T E × List (Event T E)
  | Call.next v => Observer.next s v
  | Call.error e => Observer.error s e
  | Call.complete => Observer.complete s
  | Call.unsubscribe => Observer.unsubscribe s

/-- Run a sequence of calls on an Observer, threading the state and
concatenating the emitted effects in order. -/
def runCalls (s : ObserverState T E) :
    List (Call T E) → ObserverState T E × List (Event T E)
  | [] => (s, [])
  | c :: cs =>
    let r := applyCall s c
    let r' := runCalls r.1 cs
    (r'.1, r.2 ++ r'.2)

/-- Mirrors `class Observable<T, E>`: it wraps one producer function
`_subscribe : (observer) => () => void`.  The producer's interaction with
the observer it receives is exactly a sequence of calls on that observer,
performed before the producer returns its teardown function; the embedding
represents the producer by that call sequence.  (The returned teardown
function itself is opaque; its assignment and invocations are tracked in
`ObserverState.teardownAssigned` and `Event.teardownCall`.) -/
structure Observable (T E : Type) where
  producerCalls : List (Call T E)

namespace Observable

/-- `Observable.from(values)`: a producer that calls `observer.next(value)`
for each element of `values` in order via `values.forEach`, then calls
`observer.complete()`, and returns a teardown function (which logs
"unsubscribed"). -/
def «from» (values : List T) : Observable T E :=
  { producerCalls := values.map Call.next ++ [Call.complete] }

/-- `Observable.subscribe(obs)`: construct a fresh
`Observer` from the handlers, run the stored producer on it, and only
after the producer returns assign its returned teardown function to the
observer's `_unsubscribe` slot.  The result is the observer's state as
seen by the returned `Subscription`, together with the effects emitted
during the producer run. -/
def subscribe (o : Observable T E) (h : ObserverHandlers T E) :
    ObserverState T E × List (Event T E) :=
  let r := runCalls (Observer.mk h) o.producerCalls
  ({ r.1 with teardownAssigned := true }, r.2)

end Observable

/-- A whole subscription lifecycle: `subscribe`, then a sequence of
further calls on the same observer (explicit `unsubscribe` through the
`Subscription`, or late deliveries).  Returns the final state and the
full effect trace. -/
def runSubscription (o : Observable T E) (h : ObserverHandlers T E)
    (post : List (Call T E)) : ObserverState T E × List (Event T E) :=
  let r := o.subscribe h
  let r' := runCalls r.1 post
  (r'.1, r.2 ++ r'.2)

/-- Count the teardown invocations in an effect trace. -/
def countTeardown (tr : List (Event T E)) : Nat :=
  tr.countP fun ev =>
    match ev with
    | Event.teardownCall => true
    | _ => false

/-- Count the `handlers.next` invocations in an effect trace. -/
def countNext (tr : List (Event T E)) : Nat :=
  tr.countP fun ev =>
    match ev with
    | Event.nextCall _ => true
    | _ => false

/-- Count the `handlers.error` invocations in an effect trace. -/
def countError (tr : List (Event T E)) : Nat :=
  tr.countP fun ev =>
    match ev with
    | Event.errorCall _ => true
    | _ => false

/-- Count the `handlers.complete` invocations in an effect trace. -/
def countComplete (tr : List (Event T E)) : Nat :=
  tr.countP fun ev =>
    match ev with
    | Event.completeCall => true
    | _ => false

/-- Count all user-handler invocations (`next`, `error`, `complete`,
not teardown) in an effect trace. -/
def countHandler (tr : List (Event T E)) : Nat :=
  tr.countP fun ev =>
    match ev with
    | Event.teardownCall => false
    | _ => true

/-- Count the `unsubscribe` calls in a call sequence. -/
def countUnsubscribeCalls (cs : List (Call T E)) : Nat :=
  cs.countP fun c =>
    match c with
    | Call.unsubscribe => true
    | _ => false

/-- The handlers record of the demo subscription at the bottom of
`src/index.ts`: `next`, `error` and `complete` all supplied. -/
def allHandlers : ObserverHandlers T E :=
  { hasNext := true, hasError := true, hasComplete := true }

/-- An empty handlers object: no `next`, `error` or `complete` field. -/
def noHandlers : ObserverHandlers T E :=
  { hasNext := false, hasError := false, hasComplete := false }

example :
    (Observable.subscribe (Observable.«from» [1, 2, 3] : Observable Nat Nat)
      allHandlers).2 =
    [Event.nextCall 1, Event.nextCall 2, Event.nextCall 3,
     Event.completeCall] := by decide

example :
    countTeardown
      (runSubscription (Observable.«from» [1, 2, 3] : Observable Nat Nat)
        allHandlers [Call.unsubscribe, Call.unsubscribe]).2 = 2 := by decide

/-! ### Helper lemmas -/

theorem runCalls_nil (s : ObserverState T E) : runCalls s [] = (s, []) := rfl

theorem runCalls_cons (s : ObserverState T E) (c : Call T E)
    (cs : List (Call T E)) :
    runCalls s (c :: cs) =
      ((runCalls (applyCall s c).1 cs).1,
       (applyCall s c).2 ++ (runCalls (applyCall s c).1 cs).2) := rfl

theorem countTeardown_append (a b : List (Event T E)) :
    countTeardown (a ++ b) = countTeardown a + countTeardown b := by
  simp [countTeardown]

theorem countHandler_append (a b : List (Event T E)) :
    countHandler (a ++ b) = countHandler a + countHandler b := by
  simp [countHandler]

theorem countNext_append (a b : List (Event T E)) :
    countNext (a ++ b) = countNext a + countNext b := by
  simp [countNext]

theorem countError_append (a b : List (Event T E)) :
    countError (a ++ b) = countError a + countError b := by
  simp [countError]

theorem countComplete_append (a b : List (Event T E)) :
    countComplete (a ++ b) = countComplete a + countComplete b := by
  simp [countComplete]

/-- No Observer method ever writes the `_unsubscribe` slot; only
`Observable.subscribe` assigns it. -/
theorem applyCall_teardownAssigned (s : ObserverState T E) (c : Call T E) :
    (applyCall s c).1.teardownAssigned = s.teardownAssigned := by
  cases c <;>
    simp only [applyCall, Observer.next, Observer.error, Observer.complete,
      Observer.unsubscribe] <;>
    split_ifs <;> rfl

/-- No Observer method ever changes the handlers record. -/
theorem applyCall_handlers (s : ObserverState T E) (c : Call T E) :
    (applyCall s c).1.handlers = s.handlers := by
  cases c <;>
    simp only [applyCall, Observer.next, Observer.error, Observer.complete,
      Observer.unsubscribe] <;>
    split_ifs <;> rfl

/-- The effects of one call on an already-unsubscribed Observer:
`next`, `error` and `complete` are no-ops, while `unsubscribe` still
invokes the teardown when the slot is assigned. -/
def lateEffects (s : ObserverState T E) : Call T E → List (Event T E)
  | Call.unsubscribe =>
    if s.teardownAssigned then [Event.teardownCall] else []
  | _ => []

theorem applyCall_of_unsubscribed (s : ObserverState T E) (c : Call T E)
    (hs : s.isUnsubscribed = true) :
    applyCall s c = (s, lateEffects s c) := by
  obtain ⟨h, u, td⟩ := s
  simp only at hs
  subst hs
  cases c <;>
    simp [applyCall, Observer.next, Observer.error, Observer.complete,
      Observer.unsubscribe, lateEffects] <;>
    split_ifs <;> rfl

theorem applyCall_fst_of_unsubscribed (s : ObserverState T E) (c : Call T E)
    (hs : s.isUnsubscribed = true) :
    (applyCall s c).1 = s := by
  rw [applyCall_of_unsubscribed s c hs]

theorem applyCall_snd_of_unsubscribed (s : ObserverState T E) (c : Call T E)
    (hs : s.isUnsubscribed = true) :
    (applyCall s c).2 = lateEffects s c := by
  rw [applyCall_of_unsubscribed s c hs]

/-- Running any call sequence on an already-unsubscribed Observer leaves
the state unchanged, invokes no handler of any kind, and invokes the
teardown once per `unsubscribe` call (when the slot is assigned). -/
theorem runCalls_of_unsubscribed (s : ObserverState T E)
    (cs : List (Call T E)) (hs : s.isUnsubscribed = true) :
    (runCalls s cs).1 = s ∧
    countHandler (runCalls s cs).2 = 0 ∧
    countNext (runCalls s cs).2 = 0 ∧
    countError (runCalls s cs).2 = 0 ∧
    countComplete (runCalls s cs).2 = 0 ∧
    countTeardown (runCalls s cs).2 =
      (if s.teardownAssigned then countUnsubscribeCalls cs else 0) := by
  induction cs with
  | nil =>
    simp [runCalls, countHandler, countNext, countError, countComplete,
      countTeardown, countUnsubscribeCalls]
  | cons c cs ih =>
    obtain ⟨ih1, ih2, ih3, ih4, ih5, ih6⟩ := ih
    rw [runCalls_cons, applyCall_fst_of_unsubscribed s c hs,
      applyCall_snd_of_unsubscribed s c hs]
    refine ⟨ih1, ?_, ?_, ?_, ?_, ?_⟩
    · rw [countHandler_append, ih2]
      cases c <;> cases htd : s.teardownAssigned <;>
        simp [lateEffects, htd, countHandler]
    · rw [countNext_append, ih3]
      cases c <;> cases htd : s.teardownAssigned <;>
        simp [lateEffects, htd, countNext]
    · rw [countError_append, ih4]
      cases c <;> cases htd : s.teardownAssigned <;>
        simp [lateEffects, htd, countError]
    · rw [countComplete_append, ih5]
      cases c <;> cases htd : s.teardownAssigned <;>
        simp [lateEffects, htd, countComplete]
    · rw [countTeardown_append, ih6]
      cases c <;> cases htd : s.teardownAssigned <;>
        simp [lateEffects, htd, countTeardown, countUnsubscribeCalls] <;>
        omega

/-- Before `Observable.subscribe` assigns the `_unsubscribe` slot, no call
can invoke the teardown: `unsubscribe()` finds the slot empty.  This is
why a producer that terminates the Observer before returning leaves its
teardown orphaned. -/
theorem countTeardown_runCalls_of_not_assigned (s : ObserverState T E)
    (cs : List (Call T E)) (hta : s.teardownAssigned = false) :
    countTeardown (runCalls s cs).2 = 0 := by
  induction cs generalizing s with
  | nil => simp [runCalls, countTeardown]
  | cons c cs ih =>
    rw [runCalls_cons, countTeardown_append]
    have hta' : (applyCall s c).1.teardownAssigned = false := by
      rw [applyCall_teardownAssigned]; exact hta
    rw [ih _ hta']
    cases c <;>
      simp only [applyCall, Observer.next, Observer.error, Observer.complete,
        Observer.unsubscribe, hta] <;>
      split_ifs <;>
      simp_all [countTeardown]

/-- The trace of `Observable.from`'s producer run on a fresh Observer:
each value is delivered to `handlers.next` when present, then
`handlers.complete` fires when present; the Observer ends unsubscribed,
with the teardown slot still unassigned. -/
theorem runCalls_from_producer (h : ObserverHandlers T E)
    (values : List T) :
    runCalls (Observer.mk h) (values.map Call.next ++ [Call.complete]) =
      ({ handlers := h, isUnsubscribed := true, teardownAssigned := false },
       (if h.hasNext then values.map Event.nextCall else []) ++
       (if h.hasComplete then [Event.completeCall] else [])) := by
  induction values with
  | nil =>
    cases hc : h.hasComplete <;>
      simp [runCalls, applyCall, Observer.mk, Observer.complete,
        Observer.unsubscribe, hc]
  | cons v vs ih =>
    cases hn : h.hasNext <;>
      simp only [List.map_cons, List.cons_append, runCalls_cons, applyCall,
        Observer.next, Observer.mk, hn, Bool.false_and, Bool.true_and,
        Bool.not_false, if_false, if_true] <;>
      simp [Observer.mk] at ih <;>
      simp [ih, hn]

/-- The state and trace produced by subscribing to `Observable.from`:
the producer has already completed the Observer, and only then is the
teardown slot assigned. -/
theorem subscribe_from (h : ObserverHandlers T E) (values : List T) :
    (Observable.«from» values : Observable T E).subscribe h =
      ({ handlers := h, isUnsubscribed := true, teardownAssigned := true },
       (if h.hasNext then values.map Event.nextCall else []) ++
       (if h.hasComplete then [Event.completeCall] else [])) := by
  simp [Observable.subscribe, Observable.«from», runCalls_from_producer]

theorem runCalls_handlers (s : ObserverState T E) (cs : List (Call T E)) :
    (runCalls s cs).1.handlers = s.handlers := by
  induction cs generalizing s with
  | nil => rfl
  | cons c cs ih => rw [runCalls_cons]; rw [ih, applyCall_handlers]

theorem countTeardown_map_nextCall (values : List T) :
    countTeardown (values.map (Event.nextCall : T → Event T E)) = 0 := by
  induction values with
  | nil => rfl
  | cons v vs ih => simpa [countTeardown] using ih

theorem countError_map_nextCall (values : List T) :
    countError (values.map (Event.nextCall : T → Event T E)) = 0 := by
  induction values with
  | nil => rfl
  | cons v vs ih => simpa [countError] using ih

theorem countComplete_map_nextCall (values : List T) :
    countComplete (values.map (Event.nextCall : T → Event T E)) = 0 := by
  induction values with
  | nil => rfl
  | cons v vs ih => simpa [countComplete] using ih

/-- With no handlers supplied, no Observer method ever emits a handler
invocation (only teardown invocations remain possible). -/
theorem countHandler_applyCall_of_noHandlers (s : ObserverState T E)
    (c : Call T E) (hh : s.handlers = noHandlers) :
    countHandler (applyCall s c).2 = 0 := by
  cases c <;>
    simp only [applyCall, Observer.next, Observer.error, Observer.complete,
      Observer.unsubscribe, hh, noHandlers] <;>
    split_ifs <;>
    simp_all [countHandler]

theorem countHandler_runCalls_of_noHandlers (s : ObserverState T E)
    (cs : List (Call T E)) (hh : s.handlers = noHandlers) :
    countHandler (runCalls s cs).2 = 0 := by
  induction cs generalizing s with
  | nil => rfl
  | cons c cs ih =>
    rw [runCalls_cons, countHandler_append,
      countHandler_applyCall_of_noHandlers s c hh,
      ih _ (by rw [applyCall_handlers]; exact hh)]

/-- At most one of the `error`/`complete` handlers is ever invoked over
any call sequence, from any state. -/
theorem terminal_count_le_one (cs : List (Call T E)) (s : ObserverState T E) :
    countError (runCalls s cs).2 + countComplete (runCalls s cs).2 ≤ 1 := by
  induction cs generalizing s with
  | nil => simp [runCalls, countError, countComplete]
  | cons c cs ih =>
    rw [runCalls_cons, countError_append, countComplete_append]
    by_cases hs : s.isUnsubscribed = true
    · rw [applyCall_snd_of_unsubscribed s c hs,
        applyCall_fst_of_unsubscribed s c hs]
      have hrest := runCalls_of_unsubscribed s cs hs
      rw [hrest.2.2.2.1, hrest.2.2.2.2.1]
      cases c <;> cases htd : s.teardownAssigned <;>
        simp [lateEffects, htd, countError, countComplete]
    · replace hs : s.isUnsubscribed = false := by
        cases hu : s.isUnsubscribed
        · rfl
        · exact absurd hu hs
      cases c with
      | next v =>
        have h1 : (applyCall s (Call.next v)).1 = s := by
          simp only [applyCall, Observer.next]; split_ifs <;> rfl
        have h2 : countError (applyCall s (Call.next v)).2 = 0 ∧
            countComplete (applyCall s (Call.next v)).2 = 0 := by
          simp only [applyCall, Observer.next]
          split_ifs <;> simp [countError, countComplete]
        rw [h1, h2.1, h2.2]
        simpa using ih s
      | error e =>
        have h1 : (applyCall s (Call.error e)).1.isUnsubscribed = true := by
          simp only [applyCall, Observer.error, Observer.unsubscribe, hs,
            Bool.not_false, if_true]
          split_ifs <;> rfl
        have hrest := runCalls_of_unsubscribed _ cs h1
        rw [hrest.2.2.2.1, hrest.2.2.2.2.1]
        have h2 : countError (applyCall s (Call.error e)).2 ≤ 1 ∧
            countComplete (applyCall s (Call.error e)).2 = 0 := by
          simp only [applyCall, Observer.error, Observer.unsubscribe, hs]
          split_ifs <;> simp [countError, countComplete, countError_append,
            countComplete_append]
        omega
      | complete =>
        have h1 : (applyCall s Call.complete).1.isUnsubscribed = true := by
          simp only [applyCall, Observer.complete, Observer.unsubscribe, hs,
            Bool.not_false, if_true]
          split_ifs <;> rfl
        have hrest := runCalls_of_unsubscribed _ cs h1
        rw [hrest.2.2.2.1, hrest.2.2.2.2.1]
        have h2 : countError (applyCall s Call.complete).2 = 0 ∧
            countComplete (applyCall s Call.complete).2 ≤ 1 := by
          simp only [applyCall, Observer.complete, Observer.unsubscribe, hs]
          split_ifs <;> simp [countError, countComplete, countError_append,
            countComplete_append]
        omega
      | unsubscribe =>
        have h1 : (applyCall s Call.unsubscribe).1.isUnsubscribed = true := by
          simp [applyCall, Observer.unsubscribe]
          split_ifs <;> rfl
        have hrest := runCalls_of_unsubscribed _ cs h1
        rw [hrest.2.2.2.1, hrest.2.2.2.2.1]
        have h2 : countError (applyCall s Call.unsubscribe).2 = 0 ∧
            countComplete (applyCall s Call.unsubscribe).2 = 0 := by
          simp only [applyCall, Observer.unsubscribe]
          split_ifs <;> simp [countError, countComplete]
        omega

/-! ### Claims -/

/-- An Observer in its active phase: handlers installed, not yet
unsubscribed; `td` records whether the `_unsubscribe` teardown slot has
already been assigned (it is `false` between construction and the end of
the producer run, `true` once `subscribe` has stored the producer's
returned teardown). -/
def observerWith (h : ObserverHandlers T E) (td : Bool) : ObserverState T E :=
  { handlers := h, isUnsubscribed := false, teardownAssigned := td }

/-- Claim C1, counterexample: on the Observer produced by subscribing to
`Observable.from([])` (teardown assigned, already completed without
consuming the teardown), calling `unsubscribe()` twice invokes the
teardown twice — `unsubscribe()` does not guard the teardown against
repeat invocation, contradicting "never invokes teardown more than
once". -/
theorem c1_unsubscribe_twice_fires_teardown_twice :
    countTeardown
      (runSubscription (Observable.«from» ([] : List Nat) : Observable Nat Nat)
        allHandlers [Call.unsubscribe, Call.unsubscribe]).2 = 2 ∧
    ¬ countTeardown
      (runSubscription (Observable.«from» ([] : List Nat) : Observable Nat Nat)
        allHandlers [Call.unsubscribe, Call.unsubscribe]).2 ≤ 1 := by
  decide

/-- Claim C1, amended: calling `unsubscribe()` N times invokes the
teardown action once per call — N times when the teardown slot is
assigned, zero times when it is not.  The code has no guard preventing
repeated teardown invocation, and a prior terminal event does not
prevent a later `unsubscribe()` from invoking the teardown again. -/
theorem c1_unsubscribe_teardown_once_per_call (T E : Type)
    (s : ObserverState T E) (n : Nat) :
    countTeardown (runCalls s (List.replicate n Call.unsubscribe)).2 =
      if s.teardownAssigned then n else 0 := by
  induction n generalizing s with
  | zero => cases htd : s.teardownAssigned <;> simp [runCalls, countTeardown]
  | succ n ih =>
    rw [List.replicate_succ, runCalls_cons, countTeardown_append]
    have h1 : applyCall s Call.unsubscribe =
        ({ s with isUnsubscribed := true },
         if s.teardownAssigned then [Event.teardownCall] else []) := by
      simp only [applyCall, Observer.unsubscribe]
      split_ifs <;> rfl
    rw [h1, ih]
    cases htd : s.teardownAssigned <;>
      simp [htd, countTeardown] <;> omega

/-- Claim C2: for any sequence of calls on one active Observer, at most
one of the `error`/`complete` handlers is ever invoked, and once a
terminal event (`error`, `complete` or `unsubscribe`) has set
`isUnsubscribed`, no handler of any kind (`next`, `error` or `complete`)
is invoked by any further calls. -/
theorem c2_at_most_one_terminal_then_silence (T E : Type)
    (h : ObserverHandlers T E) (td : Bool) (cs post : List (Call T E)) :
    countError (runCalls (observerWith h td) cs).2 +
      countComplete (runCalls (observerWith h td) cs).2 ≤ 1 ∧
    ((runCalls (observerWith h td) cs).1.isUnsubscribed = true →
      countHandler
        (runCalls (runCalls (observerWith h td) cs).1 post).2 = 0) :=
  ⟨terminal_count_le_one cs _,
   fun hu => (runCalls_of_unsubscribed _ post hu).2.1⟩

theorem c2_at_most_one_terminal_then_silence_witness :
    countError
        (runCalls (observerWith (allHandlers : ObserverHandlers Nat Nat) false)
          [Call.complete]).2 +
      countComplete
        (runCalls (observerWith (allHandlers : ObserverHandlers Nat Nat) false)
          [Call.complete]).2 ≤ 1 ∧
    countHandler
      (runCalls
        (runCalls (observerWith (allHandlers : ObserverHandlers Nat Nat) false)
          [Call.complete]).1
        [Call.next 5, Call.error 9, Call.complete]).2 = 0 :=
  ⟨(c2_at_most_one_terminal_then_silence Nat Nat allHandlers false
      [Call.complete] [Call.next 5, Call.error 9, Call.complete]).1,
   (c2_at_most_one_terminal_then_silence Nat Nat allHandlers false
      [Call.complete] [Call.next 5, Call.error 9, Call.complete]).2
     (by decide)⟩

/-- Claim C3: for `Observable.from`'s producer, which calls `complete()`
before returning its teardown, the teardown is never invoked during
`subscribe` (count 0 — the completion fires while the slot is still
empty, and assignment does not retroactively fire it for the
already-terminated Observer); afterwards the teardown is invoked exactly
by explicit `unsubscribe()` calls: once per such call and never by
late `next`/`error`/`complete` calls. -/
theorem c3_from_teardown_orphaned_until_unsubscribe (T E : Type)
    (values : List T) (h : ObserverHandlers T E) (post : List (Call T E)) :
    countTeardown
      ((Observable.«from» values : Observable T E).subscribe h).2 = 0 ∧
    ((Observable.«from» values : Observable T E).subscribe
        h).1.isUnsubscribed = true ∧
    ((Observable.«from» values : Observable T E).subscribe
        h).1.teardownAssigned = true ∧
    (Observer.unsubscribe
      ((Observable.«from» values : Observable T E).subscribe h).1).2 =
      [Event.teardownCall] ∧
    countTeardown
      (runCalls ((Observable.«from» values : Observable T E).subscribe h).1
        post).2 = countUnsubscribeCalls post := by
  rw [subscribe_from]
  refine ⟨?_, rfl, rfl, by simp [Observer.unsubscribe], ?_⟩
  · rw [countTeardown_append]
    cases hn : h.hasNext <;> cases hc : h.hasComplete <;>
      simp [hn, hc, countTeardown, countTeardown_map_nextCall]
  · have hr := runCalls_of_unsubscribed
      ({ handlers := h, isUnsubscribed := true, teardownAssigned := true } :
        ObserverState T E) post rfl
    rw [hr.2.2.2.2.2]
    rfl

/-- Claim C4: subscribing to `Observable.from(values)` with `next` and
`complete` handlers present delivers exactly the values, in order, to
the `next` handler, followed by exactly one `complete` handler
invocation, and never invokes the `error` handler. -/
theorem c4_from_order_preservation (T E : Type) (values : List T)
    (h : ObserverHandlers T E) (hn : h.hasNext = true)
    (hc : h.hasComplete = true) :
    ((Observable.«from» values : Observable T E).subscribe h).2 =
      values.map Event.nextCall ++ [Event.completeCall] ∧
    countError
      ((Observable.«from» values : Observable T E).subscribe h).2 = 0 := by
  rw [subscribe_from]
  refine ⟨by simp [hn, hc], ?_⟩
  rw [countError_append]
  simp [hn, hc, countError, countError_map_nextCall]

theorem c4_from_order_preservation_witness :
    ((Observable.«from» [1, 2, 3] : Observable Nat Nat).subscribe
        allHandlers).2 =
      [1, 2, 3].map Event.nextCall ++ [Event.completeCall] ∧
    countError
      ((Observable.«from» [1, 2, 3] : Observable Nat Nat).subscribe
        allHandlers).2 = 0 :=
  c4_from_order_preservation Nat Nat [1, 2, 3] allHandlers (by decide)
    (by decide)

/-- Claim C5, counterexample: after `Observable.from([1,2,3])` has
delivered `h1(1), h1(2), h1(3), h3()` (with `h2` never called), calling
the Subscription's `unsubscribe()` is NOT free of observable effects:
it executes the teardown action (`countTeardown = 1 ≠ 0`), because the
teardown assigned after the producer returned was never consumed by the
earlier completion. -/
theorem c5_unsubscribe_after_complete_fires_teardown :
    ((Observable.«from» [1, 2, 3] : Observable Nat Nat).subscribe
        allHandlers).2 =
      [Event.nextCall 1, Event.nextCall 2, Event.nextCall 3,
       Event.completeCall] ∧
    ¬ countTeardown
        (Observer.unsubscribe
          ((Observable.«from» [1, 2, 3] : Observable Nat Nat).subscribe
            allHandlers).1).2 = 0 := by
  decide

/-- Claim C5, amended: after the subscription to `Observable.from`
has delivered all values and the completion, calling `unsubscribe()`
invokes no handler, but it does execute the teardown action (exactly
once per call), because the completion fired before the teardown slot
was assigned and so never consumed it. -/
theorem c5_unsubscribe_after_complete_teardown_only (values : List Nat) :
    ((Observable.«from» values : Observable Nat Nat).subscribe
        allHandlers).2 =
      values.map Event.nextCall ++ [Event.completeCall] ∧
    (Observer.unsubscribe
      ((Observable.«from» values : Observable Nat Nat).subscribe
        allHandlers).1).2 = [Event.teardownCall] ∧
    countHandler
      (Observer.unsubscribe
        ((Observable.«from» values : Observable Nat Nat).subscribe
          allHandlers).1).2 = 0 := by
  rw [subscribe_from]
  exact ⟨by simp [allHandlers], by simp [Observer.unsubscribe], by
    simp [Observer.unsubscribe, countHandler]⟩

/-- A producer that synchronously calls `observer.error("boom")` exactly
once and never calls `next` or `complete`, then returns its teardown
function. -/
def boomObservable : Observable Nat String :=
  { producerCalls := [Call.error "boom"] }

/-- A producer that performs no synchronous calls and returns its
teardown immediately; the single `error("boom")` is delivered only
after `subscribe` has returned (asynchronous delivery). -/
def asyncBoomObservable : Observable Nat String :=
  { producerCalls := [] }

/-- Claim C6, counterexample: for the synchronous producer that calls
`observer.error("boom")` once and never `next`/`complete`, subscribing
with all three handlers invokes `h2("boom")` once and `h1`/`h3` never —
but the teardown is invoked zero times, not once: the error fires
before `subscribe` assigns the teardown slot, so `unsubscribe()` inside
`error()` finds the slot empty. -/
theorem c6_sync_error_leaves_teardown_unfired :
    countError (boomObservable.subscribe allHandlers).2 = 1 ∧
    countNext (boomObservable.subscribe allHandlers).2 = 0 ∧
    countComplete (boomObservable.subscribe allHandlers).2 = 0 ∧
    countTeardown (boomObservable.subscribe allHandlers).2 = 0 ∧
    ¬ countTeardown (boomObservable.subscribe allHandlers).2 = 1 := by
  decide

/-- Claim C6, amended: a producer that calls `observer.error("boom")`
exactly once and never `next`/`complete` invokes `h2("boom")` exactly
once and `h1`/`h3` never; the teardown is invoked exactly once when the
error is delivered after `subscribe` has assigned the teardown slot
(asynchronous delivery), but zero times when the producer delivers the
error synchronously before returning. -/
theorem c6_error_producer_traces :
    (boomObservable.subscribe allHandlers).2 = [Event.errorCall "boom"] ∧
    (runSubscription asyncBoomObservable allHandlers
      [Call.error "boom"]).2 =
      [Event.errorCall "boom", Event.teardownCall] := by
  decide

/-- Claim C7: `error(err)` on a non-terminated Observer invokes
`handlers.error` exactly when present (when absent the error is dropped
with no other handler invocation — only the teardown effect remains),
then unconditionally sets `isUnsubscribed` and invokes the teardown
when the slot is assigned; on an already-terminated Observer it is a
strict no-op (state unchanged, no effects, the error dropped). -/
theorem c7_error_method_behavior (T E : Type) (s : ObserverState T E)
    (err : E) :
    Observer.error s err =
      if s.isUnsubscribed then (s, [])
      else
        ({ s with isUnsubscribed := true },
         (if s.handlers.hasError then [Event.errorCall err] else []) ++
         (if s.teardownAssigned then [Event.teardownCall] else [])) := by
  cases hu : s.isUnsubscribed
  · simp [Observer.error, Observer.unsubscribe, hu]
    split_ifs <;> simp
  · simp [Observer.error, hu]

/-- Claim C8: subscribing with an empty handlers object discards every
notification — over any producer behavior and any further calls, not a
single handler invocation occurs — while the teardown still executes on
termination: an explicit `unsubscribe()` after `subscribe` executes it,
and if the Observer is still active after `subscribe`, a terminal
`error` or `complete` executes it too.  (Absence of exceptions is
implicit: every operation of the embedding is total.) -/
theorem c8_empty_handlers_silent_teardown_kept (T E : Type)
    (pcs post : List (Call T E)) (e : E) :
    countHandler
      (runSubscription ({ producerCalls := pcs } : Observable T E)
        noHandlers post).2 = 0 ∧
    (Observer.unsubscribe
      (({ producerCalls := pcs } : Observable T E).subscribe
        noHandlers).1).2 = [Event.teardownCall] ∧
    ((({ producerCalls := pcs } : Observable T E).subscribe
        noHandlers).1.isUnsubscribed = false →
      countTeardown
        (Observer.error
          (({ producerCalls := pcs } : Observable T E).subscribe
            noHandlers).1 e).2 = 1 ∧
      countTeardown
        (Observer.complete
          (({ producerCalls := pcs } : Observable T E).subscribe
            noHandlers).1).2 = 1) := by
  refine ⟨?_, ?_, ?_⟩
  · rw [runSubscription, countHandler_append]
    rw [Observable.subscribe]
    rw [countHandler_runCalls_of_noHandlers _ _ rfl,
      countHandler_runCalls_of_noHandlers _ _ (by
        rw [runCalls_handlers]; rfl)]
  · rw [Observable.subscribe, Observer.unsubscribe]
    simp
  · intro hu
    have hu' : (runCalls (Observer.mk (noHandlers : ObserverHandlers T E))
        pcs).1.isUnsubscribed = false := by
      simpa [Observable.subscribe] using hu
    have hhe : (runCalls (Observer.mk (noHandlers : ObserverHandlers T E))
        pcs).1.handlers.hasError = false := by
      rw [runCalls_handlers]; rfl
    have hhc : (runCalls (Observer.mk (noHandlers : ObserverHandlers T E))
        pcs).1.handlers.hasComplete = false := by
      rw [runCalls_handlers]; rfl
    constructor
    · simp [Observable.subscribe, Observer.error, Observer.unsubscribe,
        hu', hhe, countTeardown]
    · simp [Observable.subscribe, Observer.complete, Observer.unsubscribe,
        hu', hhc, countTeardown]

theorem c8_empty_handlers_silent_teardown_kept_witness :
    countHandler
      (runSubscription ({ producerCalls := [] } : Observable Nat Nat)
        noHandlers [Call.next 7]).2 = 0 ∧
    (Observer.unsubscribe
      (({ producerCalls := [] } : Observable Nat Nat).subscribe
        noHandlers).1).2 = [Event.teardownCall] ∧
    countTeardown
      (Observer.error
        (({ producerCalls := [] } : Observable Nat Nat).subscribe
          noHandlers).1 0).2 = 1 ∧
    countTeardown
      (Observer.complete
        (({ producerCalls := [] } : Observable Nat Nat).subscribe
          noHandlers).1).2 = 1 :=
  ⟨(c8_empty_handlers_silent_teardown_kept Nat Nat [] [Call.next 7] 0).1,
   (c8_empty_handlers_silent_teardown_kept Nat Nat [] [Call.next 7] 0).2.1,
   (c8_empty_handlers_silent_teardown_kept Nat Nat [] [Call.next 7] 0).2.2
     (by decide)⟩

/-- Claim C9: once `unsubscribe()` has been called on an active Observer
(before any emission), every subsequent sequence of calls invokes the
`next` handler zero times and the `complete` handler zero times,
whether or not the teardown slot was already assigned. -/
theorem c9_post_unsubscribe_silence (T E : Type)
    (h : ObserverHandlers T E) (td : Bool) (post : List (Call T E)) :
    countNext
      (runCalls (Observer.unsubscribe (observerWith h td)).1 post).2 = 0 ∧
    countComplete
      (runCalls (Observer.unsubscribe (observerWith h td)).1 post).2 = 0 := by
  have hu : (Observer.unsubscribe
      (observerWith h td : ObserverState T E)).1.isUnsubscribed = true := by
    rw [Observer.unsubscribe]
    split_ifs <;> rfl
  have hr := runCalls_of_unsubscribed _ post hu
  exact ⟨hr.2.2.1, hr.2.2.2.2.1⟩

/-- Claim C10: subscribing to `Observable.from([])` with any handlers
delivers no `next` invocation, exactly one `complete` invocation when a
`complete` handler is present (none otherwise), and no `error`
invocation.  (The call is total and yields the Subscription state.) -/
theorem c10_from_empty_list (T E : Type) (h : ObserverHandlers T E) :
    ((Observable.«from» ([] : List T) : Observable T E).subscribe h).2 =
      (if h.hasComplete then [Event.completeCall] else []) ∧
    countNext
      ((Observable.«from» ([] : List T) : Observable T E).subscribe h).2
      = 0 ∧
    countError
      ((Observable.«from» ([] : List T) : Observable T E).subscribe h).2
      = 0 ∧
    countComplete
      ((Observable.«from» ([] : List T) : Observable T E).subscribe h).2
      = (if h.hasComplete then 1 else 0) := by
  rw [subscribe_from]
  cases hn : h.hasNext <;> cases hc : h.hasComplete <;>
    simp [hn, hc, countNext, countError, countComplete]
